import Mathlib

/-!
# Verification of the P037 suboptimal-choice experiment program

Shallow embedding of `P037_ExpProgram_2023-06-09.py` (class `MainScreen`):
the trial-order generator, the outcome-quota seeding and the
`feedback_stage` outcome resolution, the `build_keys` / `key_press`
rejection sub-protocol, the `write_data` / `write_comp_data` logging, and
the settings / fixed-ratio validation in `__init__` and `first_ITI`.

Python strings are Lean `String`s, Python floats that only ever hold the
configured probabilities (0.2, 0.5) and clock readings are `ℚ` (at the
configured values the float computations `int(0.2*20)`, `int(0.8*20)`,
`int(0.5*20)` produce the same integers 4, 16, 10 as exact rationals),
randomness (`random.shuffle`, `random.uniform`, `random.choice`) is passed
in explicitly, and fallible operations return `Option`.
-/

/-- Python list repetition `l * n` : `n` concatenated copies of `l`. -/
def pyListMul (l : List α) (n : Nat) : List α := (List.replicate n l).flatten

/-- Python's substring test `sub in s` on strings. -/
def strContains (s sub : String) : Bool :=
  (List.range (s.data.length + 1)).any fun i => sub.data.isPrefixOf (s.data.drop i)

/-- Python's `random.choice(l)`: an arbitrary element of `l` (the random
index is modelled by `k`, reduced mod the length so that every index is
reachable); raises `IndexError` (here `none`) on an empty list. -/
def pyChoice (k : Nat) (l : List α) : Option α := l.get? (k % l.length)

/-- Python's `str.lower()`, character by character. -/
def pyLower (s : String) : String := String.mk (s.data.map Char.toLower)

/-- Splitter for Python's `str.split(sep)` with a one-character
separator, accumulating the current field in reverse. -/
def pySplitAux (sep : Char) : List Char → List Char → List (List Char)
  | [], acc => [acc.reverse]
  | c :: cs, acc =>
    if c = sep then acc.reverse :: pySplitAux sep cs []
    else pySplitAux sep cs (c :: acc)

/-- Python's `str.split(sep)` for a one-character separator: the list of
fields between occurrences of `sep` (never empty). -/
def pySplit (s : String) (sep : Char) : List String :=
  (pySplitAux sep s.data []).map String.mk

/-! ## Trial-order generator (`first_ITI`, lines 474-530)

`trial_option_list` for each phase, the acceptance check of the
`while c < len(trial_option_list) and approved` loop, and the outer
`while len(self.trial_order_list) != self.trials_per_session` loop. -/

/-- Pre-training (`training_phase == 0`): `trials_per_session = 56` and
`trial_option_list` is the 7 stimulus keys repeated 8 times. -/
def pre_trial_option_list : List String :=
  pyListMul [
    "rejection_key",
    "left_choice_key",
    "right_choice_key",
    "ll_feedback_key",
    "lr_feedback_key",
    "rl_feedback_key",
    "rr_feedback_key"
    ] 8

/-- Main phase (`training_phase == 1`): `trials_per_session = 100` and
`trial_option_list` is 2x10 forced + 2x10 rejection + 10 free-choice
entries — 50 entries in total. -/
def main_trial_option_list : List String :=
  pyListMul ["forced_choice-informative", "forced_choice-noninformative"] 10 ++
    pyListMul ["rejection-informative", "rejection-noninformative"] 10 ++
      pyListMul ["free_choice"] 10

/-- The inner acceptance scan of `first_ITI` (lines 520-527): walk the
counter `c` over the shuffled list and disapprove when `c > 3` and the
entries at `c`, `c-1`, `c-2`, `c-3` coincide.  (Note the guard is
`c > 3`, so a run occupying positions 0..3 is never examined.) -/
def approvedCheck (l : List String) : Bool :=
  (List.range l.length).all fun c =>
    if c > 3 then
      !(l.getD c "" == l.getD (c-1) "" && l.getD c "" == l.getD (c-2) ""
        && l.getD c "" == l.getD (c-3) "")
    else
      true

/-- The outer `while len(self.trial_order_list) != self.trials_per_session`
loop (lines 516-530): each iteration consumes one shuffle of
`trial_option_list`; if the shuffle passes `approvedCheck` its entries are
all appended to the accumulator.  `shuffles` is the (finite prefix of the)
random shuffle stream; `none` models non-termination within it. -/
def trial_order_loop (target : Nat) (acc : List String) :
    List (List String) → Option (List String)
  | [] => if acc.length = target then some acc else none
  | s :: rest =>
    if acc.length = target then some acc
    else trial_order_loop target (if approvedCheck s then acc ++ s else acc) rest

/-- Spec-side predicate (from the spec's words, for comparison with
`approvedCheck`): the sequence contains four or more identical
consecutive entries somewhere. -/
def hasFourRun (l : List String) : Bool :=
  (List.range l.length).any fun i =>
    i + 3 < l.length &&
      (l.getD i "" == l.getD (i+1) "" && l.getD i "" == l.getD (i+2) ""
        && l.getD i "" == l.getD (i+3) "")

/-- A concrete shuffle of the pre-training multiset that begins with four
consecutive `rejection_key` entries and is otherwise run-free: the buggy
`c > 3` guard approves it. -/
def fourRunShuffle : List String :=
  ["rejection_key", "rejection_key", "rejection_key", "rejection_key"] ++
    pyListMul [
      "left_choice_key", "right_choice_key", "ll_feedback_key",
      "lr_feedback_key", "rl_feedback_key", "rr_feedback_key",
      "rejection_key"
      ] 4 ++
    pyListMul [
      "left_choice_key", "right_choice_key", "ll_feedback_key",
      "lr_feedback_key", "rl_feedback_key", "rr_feedback_key"
      ] 4

/-- C1: the generator's acceptance check misses runs at positions 0..3
(`if c > 3` instead of `c > 2`): a legal shuffle of the pre-training
multiset that starts with four identical tags is approved, and the
generator returns it as the session's full 56-trial sequence even though
it contains a run of four identical consecutive trial-type tags — against
the claim (and against the code's own comments, which promise no more
than three consecutive repeats). -/
theorem C1_four_run_returned :
    fourRunShuffle.Perm pre_trial_option_list ∧
    approvedCheck fourRunShuffle = true ∧
    trial_order_loop 56 [] [fourRunShuffle] = some fourRunShuffle ∧
    hasFourRun fourRunShuffle = true := by
  refine ⟨by decide, by decide, ?_, by decide⟩
  decide

/-- Characterization of a successful run of the outer generator loop:
the result extends the accumulator by the concatenation of some of the
supplied shuffles (the approved ones), and has length `target`. -/
theorem trial_order_loop_some (target : Nat) :
    ∀ (shuffles : List (List String)) (acc l : List String),
      trial_order_loop target acc shuffles = some l →
      ∃ used : List (List String),
        (∀ s ∈ used, s ∈ shuffles) ∧ l = acc ++ used.flatten ∧ l.length = target := by
  intro shuffles
  induction shuffles with
  | nil =>
    intro acc l h
    rw [trial_order_loop] at h
    split at h
    · cases h
      next htar => exact ⟨[], by simp, by simp, htar⟩
    · cases h
  | cons s rest ih =>
    intro acc l h
    rw [trial_order_loop] at h
    split at h
    next htar =>
      cases h
      exact ⟨[], by simp, by simp, htar⟩
    next htar =>
      by_cases hap : approvedCheck s = true
      · rw [if_pos hap] at h
        obtain ⟨used, hmem, hl, hlen⟩ := ih (acc ++ s) l h
        refine ⟨s :: used, ?_, ?_, hlen⟩
        · intro t ht
          rcases List.mem_cons.mp ht with rfl | ht
          · exact List.mem_cons_self t rest
          · exact List.mem_cons_of_mem s (hmem t ht)
        · rw [hl, List.flatten_cons, List.append_assoc]
      · rw [if_neg hap] at h
        obtain ⟨used, hmem, hl, hlen⟩ := ih acc l h
        exact ⟨used, fun t ht => List.mem_cons_of_mem s (hmem t ht), hl, hlen⟩

/-- Concatenating permutations of a fixed base multiset multiplies every
count and the length by the number of blocks. -/
theorem flatten_of_perms_count (base : List String) :
    ∀ used : List (List String), (∀ s ∈ used, s.Perm base) →
      used.flatten.length = used.length * base.length ∧
      ∀ a : String, used.flatten.count a = used.length * base.count a := by
  intro used
  induction used with
  | nil => simp
  | cons u us ih =>
    intro hperm
    obtain ⟨h1, h2⟩ := ih fun s hs => hperm s (List.mem_cons_of_mem u hs)
    have hu := hperm u (List.mem_cons_self u us)
    constructor
    · rw [List.flatten_cons, List.length_append, h1, hu.length_eq,
        List.length_cons, Nat.succ_mul, Nat.add_comm]
    · intro a
      rw [List.flatten_cons, List.count_append, h2 a, hu.count_eq a,
        List.length_cons, Nat.succ_mul, Nat.add_comm]

/-- C2 (amended): every generated sequence has length `trials_per_session`
(100 in the main phase, 56 in pre-training); in the main phase each of the
five trial-type tags occurs exactly 20 times (the 10-per-type block of 50
is built and appended twice, since the option list holds 50 entries
against a 100-trial target), and in pre-training each of the 7 stimulus
tags occurs exactly 8 times. -/
theorem C2_sequence_length_and_counts :
    (∀ (shuffles : List (List String)) (l : List String),
      (∀ s ∈ shuffles, s.Perm main_trial_option_list) →
      trial_order_loop 100 [] shuffles = some l →
      l.length = 100 ∧
      l.count "forced_choice-informative" = 20 ∧
      l.count "forced_choice-noninformative" = 20 ∧
      l.count "rejection-informative" = 20 ∧
      l.count "rejection-noninformative" = 20 ∧
      l.count "free_choice" = 20) ∧
    (∀ (shuffles : List (List String)) (l : List String),
      (∀ s ∈ shuffles, s.Perm pre_trial_option_list) →
      trial_order_loop 56 [] shuffles = some l →
      l.length = 56 ∧
      l.count "rejection_key" = 8 ∧
      l.count "left_choice_key" = 8 ∧
      l.count "right_choice_key" = 8 ∧
      l.count "ll_feedback_key" = 8 ∧
      l.count "lr_feedback_key" = 8 ∧
      l.count "rl_feedback_key" = 8 ∧
      l.count "rr_feedback_key" = 8) := by
  constructor
  · intro shuffles l hperm h
    obtain ⟨used, hmem, hl, hlen⟩ := trial_order_loop_some 100 shuffles [] l h
    rw [List.nil_append] at hl
    subst hl
    obtain ⟨hflen, hfcount⟩ :=
      flatten_of_perms_count main_trial_option_list used
        fun s hs => hperm s (hmem s hs)
    have hbase : main_trial_option_list.length = 50 := by decide
    have hused : used.length = 2 := by
      rw [hflen, hbase] at hlen
      omega
    refine ⟨hlen, ?_, ?_, ?_, ?_, ?_⟩ <;>
      rw [hfcount, hused] <;> decide
  · intro shuffles l hperm h
    obtain ⟨used, hmem, hl, hlen⟩ := trial_order_loop_some 56 shuffles [] l h
    rw [List.nil_append] at hl
    subst hl
    obtain ⟨hflen, hfcount⟩ :=
      flatten_of_perms_count pre_trial_option_list used
        fun s hs => hperm s (hmem s hs)
    have hbase : pre_trial_option_list.length = 56 := by decide
    have hused : used.length = 1 := by
      rw [hflen, hbase] at hlen
      omega
    refine ⟨hlen, ?_, ?_, ?_, ?_, ?_, ?_, ?_⟩ <;>
      rw [hfcount, hused] <;> decide

/-- A concrete approved shuffle of the 50-entry main-phase option list:
the five trial types cycling ten times (no two consecutive entries are
equal, so the acceptance check passes). -/
def blockPattern : List String :=
  pyListMul [
    "forced_choice-informative", "forced_choice-noninformative",
    "rejection-informative", "rejection-noninformative", "free_choice"
    ] 10

/-- C2 counterexample to the claim as stated: a main-phase session built
from two approved shuffles contains every trial-type tag exactly 20
times, not 10 — e.g. `free_choice` occurs 20 times in the returned
100-trial sequence. -/
theorem C2_counterexample :
    blockPattern.Perm main_trial_option_list ∧
    approvedCheck blockPattern = true ∧
    trial_order_loop 100 [] [blockPattern, blockPattern] =
      some (blockPattern ++ blockPattern) ∧
    (blockPattern ++ blockPattern).count "free_choice" = 20 ∧
    ¬ (blockPattern ++ blockPattern).count "free_choice" = 10 := by
  refine ⟨by decide, by decide, by decide, by decide, by decide⟩

/-- Witness instantiating `C2_sequence_length_and_counts` on concrete
sessions: a main-phase run from two copies of the cyclic shuffle, and a
pre-training run from the unshuffled option list (itself approved). -/
theorem C2_sequence_length_and_counts_witness :
    ((blockPattern ++ blockPattern).length = 100 ∧
      (blockPattern ++ blockPattern).count "forced_choice-informative" = 20 ∧
      (blockPattern ++ blockPattern).count "forced_choice-noninformative" = 20 ∧
      (blockPattern ++ blockPattern).count "rejection-informative" = 20 ∧
      (blockPattern ++ blockPattern).count "rejection-noninformative" = 20 ∧
      (blockPattern ++ blockPattern).count "free_choice" = 20) ∧
    (pre_trial_option_list.length = 56 ∧
      pre_trial_option_list.count "rejection_key" = 8 ∧
      pre_trial_option_list.count "left_choice_key" = 8 ∧
      pre_trial_option_list.count "right_choice_key" = 8 ∧
      pre_trial_option_list.count "ll_feedback_key" = 8 ∧
      pre_trial_option_list.count "lr_feedback_key" = 8 ∧
      pre_trial_option_list.count "rl_feedback_key" = 8 ∧
      pre_trial_option_list.count "rr_feedback_key" = 8) := by
  constructor
  · exact C2_sequence_length_and_counts.1 [blockPattern, blockPattern]
      (blockPattern ++ blockPattern)
      (by intro s hs; rcases List.mem_cons.mp hs with rfl | hs
          · decide
          · rcases List.mem_cons.mp hs with rfl | hs
            · decide
            · cases hs)
      (by decide)
  · exact C2_sequence_length_and_counts.2 [pre_trial_option_list]
      pre_trial_option_list
      (by intro s hs; rcases List.mem_cons.mp hs with rfl | hs
          · exact List.Perm.refl _
          · cases hs)
      (by decide)

/-! ## Subject calibration (`first_ITI`, lines 439-468) -/

/-- The per-subject settings imported from the settings sheet. -/
structure Calibration where
  hopper_duration : Int
  rejection_FI_duration : Int
  informative_side : String
  informative_Splus_color : String
  informative_Sminus_color : String
  noninformative_side : String
  noninformative_Splus_color : String
  noninformative_Sminus_color : String
deriving Repr, DecidableEq

/-- The configured `self.informative_prob = 0.2` (line 373). -/
def informative_prob : ℚ := 1/5

/-- The configured `self.noninformative_prob = 0.5` (line 374). -/
def noninformative_prob : ℚ := 1/2

/-- Python `int()` on a nonnegative number: truncation, i.e. the floor.
(At the configured probabilities the Python float products `0.2*20`,
`0.8*20`, `0.5*20` round to exactly `4.0`, `16.0`, `10.0`, so exact
rational arithmetic matches the float computation here.) -/
def pyInt (q : ℚ) : Nat := (⌊q⌋).toNat

/-! ## Outcome quotas (`first_ITI`, lines 505-509) -/

/-- The seed of `self.forced_I_choice_outcome_list` (line 507): win/loss tokens for
the 20 forced informative-choice trials of a session. -/
def forced_I_choice_outcome_list : List String :=
  List.replicate (pyInt (informative_prob * 20)) "win" ++
    List.replicate (pyInt ((1 - informative_prob) * 20)) "loss"

/-- The seed of `self.forced_NI_choice_outcome_list` (line 508). -/
def forced_NI_choice_outcome_list : List String :=
  List.replicate (pyInt (noninformative_prob * 20)) "win" ++
    List.replicate (pyInt ((1 - noninformative_prob) * 20)) "loss"

/-- The seed of `self.forced_NI_choice_feedback_list` (line 509): note the color skew
uses `informative_prob` as its mixing weight. -/
def forced_NI_choice_feedback_list (cal : Calibration) : List String :=
  List.replicate (pyInt (informative_prob * 20)) cal.noninformative_Splus_color ++
    List.replicate (pyInt ((1 - informative_prob) * 20)) cal.noninformative_Sminus_color

/-- The three live quota lists, shrunk without replacement as the session
proceeds. -/
structure QuotaState where
  forced_I_choice_outcome_list : List String
  forced_NI_choice_outcome_list : List String
  forced_NI_choice_feedback_list : List String
deriving Repr, DecidableEq

/-- The quotas as seeded by `first_ITI` at session start. -/
def initialQuotas (cal : Calibration) : QuotaState :=
  ⟨forced_I_choice_outcome_list, forced_NI_choice_outcome_list,
    forced_NI_choice_feedback_list cal⟩

/-- Evaluation `int(0.2 * 20) = 4`. -/
theorem pyInt_informative_20 : pyInt (informative_prob * 20) = 4 := by
  have h : (informative_prob * 20 : ℚ) = ((4 : ℤ) : ℚ) := by
    rw [informative_prob]
    norm_num
  rw [pyInt, h, Int.floor_intCast]
  rfl

/-- Evaluation `int((1 - 0.2) * 20) = 16`. -/
theorem pyInt_one_sub_informative_20 : pyInt ((1 - informative_prob) * 20) = 16 := by
  have h : ((1 - informative_prob) * 20 : ℚ) = ((16 : ℤ) : ℚ) := by
    rw [informative_prob]
    norm_num
  rw [pyInt, h, Int.floor_intCast]
  rfl

/-- Evaluation `int(0.5 * 20) = 10`. -/
theorem pyInt_noninformative_20 : pyInt (noninformative_prob * 20) = 10 := by
  have h : (noninformative_prob * 20 : ℚ) = ((10 : ℤ) : ℚ) := by
    rw [noninformative_prob]
    norm_num
  rw [pyInt, h, Int.floor_intCast]
  rfl

/-- Evaluation `int((1 - 0.5) * 20) = 10`. -/
theorem pyInt_one_sub_noninformative_20 :
    pyInt ((1 - noninformative_prob) * 20) = 10 := by
  have h : ((1 - noninformative_prob) * 20 : ℚ) = ((10 : ℤ) : ℚ) := by
    rw [noninformative_prob]
    norm_num
  rw [pyInt, h, Int.floor_intCast]
  rfl

/-- The informative quota in literal form: 4 wins then 16 losses. -/
theorem forced_I_choice_outcome_list_eq :
    forced_I_choice_outcome_list =
      List.replicate 4 "win" ++ List.replicate 16 "loss" := by
  rw [forced_I_choice_outcome_list, pyInt_informative_20,
    pyInt_one_sub_informative_20]

/-- The non-informative outcome quota in literal form: 10 wins, 10 losses. -/
theorem forced_NI_choice_outcome_list_eq :
    forced_NI_choice_outcome_list =
      List.replicate 10 "win" ++ List.replicate 10 "loss" := by
  rw [forced_NI_choice_outcome_list, pyInt_noninformative_20,
    pyInt_one_sub_noninformative_20]

/-- The non-informative color quota in literal form: 4 S+ then 16 S-. -/
theorem forced_NI_choice_feedback_list_eq (cal : Calibration) :
    forced_NI_choice_feedback_list cal =
      List.replicate 4 cal.noninformative_Splus_color ++
        List.replicate 16 cal.noninformative_Sminus_color := by
  rw [forced_NI_choice_feedback_list, pyInt_informative_20,
    pyInt_one_sub_informative_20]

/-- The seeded quotas in literal form. -/
theorem initialQuotas_eq (cal : Calibration) :
    initialQuotas cal =
      ⟨List.replicate 4 "win" ++ List.replicate 16 "loss",
        List.replicate 10 "win" ++ List.replicate 10 "loss",
        List.replicate 4 cal.noninformative_Splus_color ++
          List.replicate 16 cal.noninformative_Sminus_color⟩ := by
  rw [initialQuotas, forced_I_choice_outcome_list_eq,
    forced_NI_choice_outcome_list_eq, forced_NI_choice_feedback_list_eq]

/-! ## Outcome resolution (`feedback_stage`, lines 670-736) -/

/-- Embeds `self.choice.split("_")[0]` (line 674): the side of the chosen key. -/
def choiceSide (choice : String) : String := (pySplit choice (Char.ofNat 95)).headD ""

/-- The outcome of `feedback_stage`: the reinforcement decision, the
feedback color that is displayed, the quotas after any pops, and how many
`uniform(0,1)` draws were consumed (to witness quota-vs-live sampling). -/
structure FeedbackResult where
  reinforced : Bool
  feedback_color : String
  quotas : QuotaState
  uniform_draws_used : Nat
deriving Repr, DecidableEq

/-- Embeds `MainScreen.feedback_stage` (lines 670-721), up to the point where
`feedback_color` is resolved.  `u1`, `u2` model the successive
`uniform(0,1)` draws and `k1`, `k2` the random indices of the successive
`random.choice` calls; `list.remove(x)` is `List.erase` (both drop the
first occurrence of the value).  A `random.choice` on an exhausted quota
raises `IndexError`, modelled by `none`. -/
def feedback_stage (cal : Calibration) (trial_type choice : String)
    (q : QuotaState) (u1 u2 : ℚ) (k1 k2 : Nat) : Option FeedbackResult :=
  if choiceSide choice = pyLower cal.informative_side then
    if strContains trial_type "forced" = false then
      if u1 ≤ informative_prob then
        some ⟨true, cal.informative_Splus_color, q, 1⟩
      else
        some ⟨false, cal.informative_Sminus_color, q, 1⟩
    else
      match pyChoice k1 q.forced_I_choice_outcome_list with
      | none => none
      | some outcome =>
        let q2 : QuotaState :=
          { q with forced_I_choice_outcome_list :=
              q.forced_I_choice_outcome_list.erase outcome }
        if outcome = "win" then
          some ⟨true, cal.informative_Splus_color, q2, 0⟩
        else
          some ⟨false, cal.informative_Sminus_color, q2, 0⟩
  else
    if strContains trial_type "forced" = false then
      some ⟨decide (u1 ≤ noninformative_prob),
        if u2 ≤ informative_prob then cal.noninformative_Splus_color
          else cal.noninformative_Sminus_color,
        q, 2⟩
    else
      match pyChoice k1 q.forced_NI_choice_outcome_list with
      | none => none
      | some outcome =>
        let q2 : QuotaState :=
          { q with forced_NI_choice_outcome_list :=
              q.forced_NI_choice_outcome_list.erase outcome }
        match pyChoice k2 q2.forced_NI_choice_feedback_list with
        | none => none
        | some fb =>
          some ⟨decide (outcome = "win"), fb,
            { q2 with forced_NI_choice_feedback_list :=
                q2.forced_NI_choice_feedback_list.erase fb }, 0⟩

/-- Python's `random.choice` on an empty list raises (`none`). -/
theorem pyChoice_nil {α : Type} (k : Nat) : pyChoice k ([] : List α) = none := by
  simp [pyChoice]

/-- A successful `random.choice` returns a member of the list. -/
theorem pyChoice_mem {α : Type} {l : List α} {k : Nat} {a : α}
    (h : pyChoice k l = some a) : a ∈ l :=
  List.get?_mem h

/-- Python's `random.choice` succeeds exactly on nonempty lists. -/
theorem pyChoice_isSome {α : Type} (l : List α) (k : Nat) :
    (pyChoice k l).isSome = true ↔ l ≠ [] := by
  unfold pyChoice
  constructor
  · intro h hnil
    subst hnil
    simp at h
  · intro h
    have hlen : 0 < l.length := List.length_pos.mpr h
    have hk : k % l.length < l.length := Nat.mod_lt _ hlen
    rw [List.get?_eq_get hk]
    rfl

/-- Branch equation: a non-forced informative-side choice is resolved by
one live `uniform(0,1)` draw against `informative_prob` (lines 676-683). -/
theorem feedback_stage_live_informative (cal : Calibration)
    (trial_type choice : String) (q : QuotaState) (u1 u2 : ℚ) (k1 k2 : Nat)
    (hside : choiceSide choice = pyLower cal.informative_side)
    (hforced : strContains trial_type "forced" = false) :
    feedback_stage cal trial_type choice q u1 u2 k1 k2 =
      some ⟨decide (u1 ≤ informative_prob),
        if u1 ≤ informative_prob then cal.informative_Splus_color
          else cal.informative_Sminus_color,
        q, 1⟩ := by
  rw [feedback_stage, if_pos hside, if_pos hforced]
  by_cases h : u1 ≤ informative_prob <;> simp [h]

/-- Branch equation: a forced informative-side choice is resolved by a
quota pop (lines 684-693), with no live draw. -/
theorem feedback_stage_forced_informative (cal : Calibration)
    (trial_type choice : String) (q : QuotaState) (u1 u2 : ℚ) (k1 k2 : Nat)
    (hside : choiceSide choice = pyLower cal.informative_side)
    (hforced : strContains trial_type "forced" = true) :
    feedback_stage cal trial_type choice q u1 u2 k1 k2 =
      match pyChoice k1 q.forced_I_choice_outcome_list with
      | none => none
      | some outcome =>
        some ⟨decide (outcome = "win"),
          if outcome = "win" then cal.informative_Splus_color
            else cal.informative_Sminus_color,
          { q with forced_I_choice_outcome_list :=
              q.forced_I_choice_outcome_list.erase outcome }, 0⟩ := by
  rw [feedback_stage, if_pos hside, if_neg (by simp [hforced])]
  cases pyChoice k1 q.forced_I_choice_outcome_list with
  | none => rfl
  | some outcome => by_cases h : outcome = "win" <;> simp [h]

/-- Branch equation: a non-forced non-informative-side choice is resolved
by two independent live draws (lines 697-710). -/
theorem feedback_stage_live_noninformative (cal : Calibration)
    (trial_type choice : String) (q : QuotaState) (u1 u2 : ℚ) (k1 k2 : Nat)
    (hside : ¬ choiceSide choice = pyLower cal.informative_side)
    (hforced : strContains trial_type "forced" = false) :
    feedback_stage cal trial_type choice q u1 u2 k1 k2 =
      some ⟨decide (u1 ≤ noninformative_prob),
        if u2 ≤ informative_prob then cal.noninformative_Splus_color
          else cal.noninformative_Sminus_color,
        q, 2⟩ := by
  rw [feedback_stage, if_neg hside, if_pos hforced]

/-- Branch equation: a forced non-informative-side choice pops one
outcome token and one color token (lines 712-721), with no live draw. -/
theorem feedback_stage_forced_noninformative (cal : Calibration)
    (trial_type choice : String) (q : QuotaState) (u1 u2 : ℚ) (k1 k2 : Nat)
    (hside : ¬ choiceSide choice = pyLower cal.informative_side)
    (hforced : strContains trial_type "forced" = true) :
    feedback_stage cal trial_type choice q u1 u2 k1 k2 =
      match pyChoice k1 q.forced_NI_choice_outcome_list with
      | none => none
      | some outcome =>
        match pyChoice k2 q.forced_NI_choice_feedback_list with
        | none => none
        | some fb =>
          some ⟨decide (outcome = "win"), fb,
            ⟨q.forced_I_choice_outcome_list,
              q.forced_NI_choice_outcome_list.erase outcome,
              q.forced_NI_choice_feedback_list.erase fb⟩, 0⟩ := by
  rw [feedback_stage, if_neg hside, if_neg (by simp [hforced])]

/-! ## Session-level quota consumption

`feedback_stage` runs once per completed trial; the runner below chains
the quota state through a session's trials (the rest of the per-trial
state machine does not touch the quotas). -/

/-- One completed trial, as seen by `feedback_stage`: its type tag, the
chosen key, and the randomness the stage may consume. -/
structure TrialRec where
  trial_type : String
  choice : String
  u1 : ℚ
  u2 : ℚ
  k1 : Nat
  k2 : Nat
deriving Repr, DecidableEq

/-- Fold `feedback_stage` over a session's completed trials, threading
the quotas and counting reinforced trials (`self.reinforcers_provided`
increments exactly on the reinforced branch). -/
def runSession (cal : Calibration) :
    List TrialRec → QuotaState → Nat → Option (QuotaState × Nat)
  | [], q, n => some (q, n)
  | t :: ts, q, n =>
    match feedback_stage cal t.trial_type t.choice q t.u1 t.u2 t.k1 t.k2 with
    | none => none
    | some r => runSession cal ts r.quotas (n + if r.reinforced then 1 else 0)

/-- A trial that pops the informative outcome quota: a forced trial whose
chosen key is on the informative side. -/
def isForcedInformative (cal : Calibration) (t : TrialRec) : Bool :=
  strContains t.trial_type "forced" &&
    (choiceSide t.choice == pyLower cal.informative_side)

/-- A trial that pops the non-informative outcome and color quotas. -/
def isForcedNoninformative (cal : Calibration) (t : TrialRec) : Bool :=
  strContains t.trial_type "forced" &&
    !(choiceSide t.choice == pyLower cal.informative_side)

/-- Each successful `feedback_stage` call removes exactly one token from
the informative quota if the trial is forced-informative, exactly one
token from each non-informative quota if it is forced-non-informative,
and touches no quota otherwise. -/
theorem feedback_stage_quota_step (cal : Calibration) (t : TrialRec)
    (q : QuotaState) (r : FeedbackResult)
    (h : feedback_stage cal t.trial_type t.choice q t.u1 t.u2 t.k1 t.k2 = some r) :
    r.quotas.forced_I_choice_outcome_list.length +
        (if isForcedInformative cal t then 1 else 0) =
      q.forced_I_choice_outcome_list.length ∧
    r.quotas.forced_NI_choice_outcome_list.length +
        (if isForcedNoninformative cal t then 1 else 0) =
      q.forced_NI_choice_outcome_list.length ∧
    r.quotas.forced_NI_choice_feedback_list.length +
        (if isForcedNoninformative cal t then 1 else 0) =
      q.forced_NI_choice_feedback_list.length := by
  by_cases hside : choiceSide t.choice = pyLower cal.informative_side
  · by_cases hforced : strContains t.trial_type "forced" = true
    · rw [feedback_stage_forced_informative cal _ _ q _ _ _ _ hside hforced] at h
      cases hpy : pyChoice t.k1 q.forced_I_choice_outcome_list with
      | none => rw [hpy] at h; cases h
      | some outcome =>
        rw [hpy] at h
        cases h
        have hmem := pyChoice_mem hpy
        have hlen := List.length_erase_of_mem hmem
        have hpos := List.length_pos.mpr (List.ne_nil_of_mem hmem)
        simp [isForcedInformative, isForcedNoninformative, hforced, hside]
        omega
    · rw [feedback_stage_live_informative cal _ _ q _ _ _ _ hside
        (by simpa using hforced)] at h
      cases h
      simp [isForcedInformative, isForcedNoninformative, hforced]
  · by_cases hforced : strContains t.trial_type "forced" = true
    · rw [feedback_stage_forced_noninformative cal _ _ q _ _ _ _ hside hforced] at h
      cases hpy : pyChoice t.k1 q.forced_NI_choice_outcome_list with
      | none => rw [hpy] at h; cases h
      | some outcome =>
        rw [hpy] at h
        cases hpy2 : pyChoice t.k2 q.forced_NI_choice_feedback_list with
        | none => rw [hpy2] at h; cases h
        | some fb =>
          rw [hpy2] at h
          cases h
          have hmem := pyChoice_mem hpy
          have hlen := List.length_erase_of_mem hmem
          have hpos := List.length_pos.mpr (List.ne_nil_of_mem hmem)
          have hmem2 := pyChoice_mem hpy2
          have hlen2 := List.length_erase_of_mem hmem2
          have hpos2 := List.length_pos.mpr (List.ne_nil_of_mem hmem2)
          simp [isForcedInformative, isForcedNoninformative, hforced, hside]
          omega
    · rw [feedback_stage_live_noninformative cal _ _ q _ _ _ _ hside
        (by simpa using hforced)] at h
      cases h
      simp [isForcedInformative, isForcedNoninformative, hforced]

/-- Session-level accounting: after any successfully completed run, each
quota has shrunk by exactly the number of forced trials of its kind. -/
theorem runSession_quota_accounting (cal : Calibration) :
    ∀ (trials : List TrialRec) (q : QuotaState) (n : Nat)
      (q' : QuotaState) (n' : Nat),
      runSession cal trials q n = some (q', n') →
      q'.forced_I_choice_outcome_list.length +
          trials.countP (isForcedInformative cal) =
        q.forced_I_choice_outcome_list.length ∧
      q'.forced_NI_choice_outcome_list.length +
          trials.countP (isForcedNoninformative cal) =
        q.forced_NI_choice_outcome_list.length ∧
      q'.forced_NI_choice_feedback_list.length +
          trials.countP (isForcedNoninformative cal) =
        q.forced_NI_choice_feedback_list.length := by
  intro trials
  induction trials with
  | nil =>
    intro q n q' n' h
    rw [runSession] at h
    cases h
    simp
  | cons t ts ih =>
    intro q n q' n' h
    rw [runSession] at h
    cases hf : feedback_stage cal t.trial_type t.choice q t.u1 t.u2 t.k1 t.k2 with
    | none => rw [hf] at h; cases h
    | some r =>
      rw [hf] at h
      obtain ⟨h1, h2, h3⟩ := ih r.quotas _ q' n' h
      obtain ⟨g1, g2, g3⟩ := feedback_stage_quota_step cal t q r hf
      refine ⟨?_, ?_, ?_⟩ <;> rw [List.countP_cons] <;> omega

/-- Over a stretch of forced trials choosing the informative side, the
reinforcer counter grows exactly by the number of `"win"` tokens popped
from the informative quota, and the quota shrinks one token per trial. -/
theorem runSession_forced_I_wins (cal : Calibration) :
    ∀ (trials : List TrialRec) (q : QuotaState) (n : Nat)
      (q' : QuotaState) (n' : Nat),
      (∀ t ∈ trials, strContains t.trial_type "forced" = true ∧
        choiceSide t.choice = pyLower cal.informative_side) →
      runSession cal trials q n = some (q', n') →
      n' + q'.forced_I_choice_outcome_list.count "win" =
        n + q.forced_I_choice_outcome_list.count "win" ∧
      q'.forced_I_choice_outcome_list.length + trials.length =
        q.forced_I_choice_outcome_list.length := by
  intro trials
  induction trials with
  | nil =>
    intro q n q' n' _ h
    rw [runSession] at h
    cases h
    simp
  | cons t ts ih =>
    intro q n q' n' hall h
    obtain ⟨hforced, hside⟩ := hall t (List.mem_cons_self t ts)
    rw [runSession,
      feedback_stage_forced_informative cal _ _ q _ _ _ _ hside hforced] at h
    cases hpy : pyChoice t.k1 q.forced_I_choice_outcome_list with
    | none => rw [hpy] at h; cases h
    | some outcome =>
      rw [hpy] at h
      dsimp only at h
      simp only [decide_eq_true_eq] at h
      obtain ⟨h1, h2⟩ := ih _ _ q' n'
        (fun s hs => hall s (List.mem_cons_of_mem t hs)) h
      dsimp only at h1 h2
      have hmem := pyChoice_mem hpy
      have hlen := List.length_erase_of_mem hmem
      have hpos := List.length_pos.mpr (List.ne_nil_of_mem hmem)
      have hce := List.count_erase "win" outcome q.forced_I_choice_outcome_list
      simp only [beq_iff_eq] at hce
      have hge : (if outcome = "win" then 1 else 0) ≤
          q.forced_I_choice_outcome_list.count "win" := by
        by_cases hw : outcome = "win"
        · rw [if_pos hw]
          exact List.count_pos_iff.mpr (hw ▸ hmem)
        · simp [hw]
      rw [List.length_cons]
      constructor
      · omega
      · omega

/-- C3: the informative outcome quota is seeded with exactly
`round(0.2*20) = 4` win and `16 = 20 - 4` loss tokens; every forced
trial choosing the informative side is resolved by popping exactly one
token from it without replacement — reinforced iff the token is `"win"`,
feedback color chosen accordingly, no `uniform(0,1)` draw consumed and
the result independent of the draw stream — and a full session of 20 such
trials is reinforced exactly 4 times, emptying the quota. -/
theorem C3_forced_informative_quota :
    (forced_I_choice_outcome_list.count "win" = 4 ∧
      forced_I_choice_outcome_list.count "loss" = 16 ∧
      forced_I_choice_outcome_list.length = 20 ∧
      (4 : ℤ) = round (informative_prob * 20) ∧
      (16 : ℤ) = 20 - round (informative_prob * 20)) ∧
    (∀ (cal : Calibration) (trial_type choice : String) (q : QuotaState)
      (u1 u2 : ℚ) (k1 k2 : Nat),
      strContains trial_type "forced" = true →
      choiceSide choice = pyLower cal.informative_side →
      q.forced_I_choice_outcome_list ≠ [] →
      ∃ tok r, tok ∈ q.forced_I_choice_outcome_list ∧
        feedback_stage cal trial_type choice q u1 u2 k1 k2 = some r ∧
        (r.reinforced = true ↔ tok = "win") ∧
        r.feedback_color = (if tok = "win" then cal.informative_Splus_color
          else cal.informative_Sminus_color) ∧
        r.quotas.forced_I_choice_outcome_list =
          q.forced_I_choice_outcome_list.erase tok ∧
        r.quotas.forced_I_choice_outcome_list.length + 1 =
          q.forced_I_choice_outcome_list.length ∧
        r.quotas.forced_NI_choice_outcome_list =
          q.forced_NI_choice_outcome_list ∧
        r.quotas.forced_NI_choice_feedback_list =
          q.forced_NI_choice_feedback_list ∧
        r.uniform_draws_used = 0 ∧
        (∀ v1 v2 : ℚ, feedback_stage cal trial_type choice q v1 v2 k1 k2 =
          feedback_stage cal trial_type choice q u1 u2 k1 k2)) ∧
    (∀ (cal : Calibration) (trials : List TrialRec)
      (q' : QuotaState) (n' : Nat),
      (∀ t ∈ trials, strContains t.trial_type "forced" = true ∧
        choiceSide t.choice = pyLower cal.informative_side) →
      trials.length = 20 →
      runSession cal trials (initialQuotas cal) 0 = some (q', n') →
      n' = 4 ∧ q'.forced_I_choice_outcome_list = []) := by
  refine ⟨⟨by rw [forced_I_choice_outcome_list_eq]; decide,
    by rw [forced_I_choice_outcome_list_eq]; decide,
    by rw [forced_I_choice_outcome_list_eq]; decide, ?_, ?_⟩, ?_, ?_⟩
  · rw [show (informative_prob * 20 : ℚ) = ((4 : ℤ) : ℚ) by
      rw [informative_prob]; norm_num, round_intCast]
  · rw [show (informative_prob * 20 : ℚ) = ((4 : ℤ) : ℚ) by
      rw [informative_prob]; norm_num, round_intCast]
    norm_num
  · intro cal trial_type choice q u1 u2 k1 k2 hforced hside hne
    have hsome : (pyChoice k1 q.forced_I_choice_outcome_list).isSome = true :=
      (pyChoice_isSome _ _).mpr hne
    obtain ⟨tok, hpy⟩ := Option.isSome_iff_exists.mp hsome
    have hmem := pyChoice_mem hpy
    have heq : feedback_stage cal trial_type choice q u1 u2 k1 k2 =
        some ⟨decide (tok = "win"),
          if tok = "win" then cal.informative_Splus_color
            else cal.informative_Sminus_color,
          { q with forced_I_choice_outcome_list :=
              q.forced_I_choice_outcome_list.erase tok }, 0⟩ := by
      rw [feedback_stage_forced_informative cal _ _ q _ _ _ _ hside hforced, hpy]
    refine ⟨tok, _, hmem, heq, by simp, rfl, rfl, ?_, rfl, rfl, rfl, ?_⟩
    · have hlen := List.length_erase_of_mem hmem
      have hpos := List.length_pos.mpr (List.ne_nil_of_mem hmem)
      dsimp only
      omega
    · intro v1 v2
      rw [feedback_stage_forced_informative cal _ _ q v1 v2 _ _ hside hforced,
        feedback_stage_forced_informative cal _ _ q u1 u2 _ _ hside hforced]
  · intro cal trials q' n' hall hlen20 hrun
    obtain ⟨h1, h2⟩ := runSession_forced_I_wins cal trials
      (initialQuotas cal) 0 q' n' hall hrun
    dsimp only [initialQuotas] at h1 h2
    have hseedlen : forced_I_choice_outcome_list.length = 20 := by
      rw [forced_I_choice_outcome_list_eq]
      decide
    have hseedwin : forced_I_choice_outcome_list.count "win" = 4 := by
      rw [forced_I_choice_outcome_list_eq]
      decide
    have hempty : q'.forced_I_choice_outcome_list = [] := by
      rw [hlen20] at h2
      exact List.length_eq_zero.mp (by omega)
    refine ⟨?_, hempty⟩
    rw [hempty] at h1
    simp only [List.count_nil, hseedwin] at h1
    omega

/-- A concrete calibration used to instantiate the quota and
state-machine theorems:  informative on the left, with the four
terminal-link colors. -/
def cal0 : Calibration :=
  ⟨5000, 1, "Left", "red", "green", "Right", "yellow", "blue"⟩

/-- The 20 completed forced informative-choice trials (the per-session total),
each popping index 0 of the surviving quota. -/
def trials20 : List TrialRec :=
  List.replicate 20 ⟨"forced_choice-informative", "left_choice_key", 0, 0, 0, 0⟩

/-- Witness for `C3_forced_informative_quota` at the concrete calibration
`cal0`: one forced informative pop succeeds, and the 20-trial session is
reinforced exactly 4 times, emptying the quota. -/
theorem C3_forced_informative_quota_witness :
    ¬ feedback_stage cal0 "forced_choice-informative" "left_choice_key"
        (initialQuotas cal0) 0 0 0 0 = none ∧
    ((4 : Nat) = 4 ∧
      (⟨[], forced_NI_choice_outcome_list,
        forced_NI_choice_feedback_list cal0⟩ : QuotaState).forced_I_choice_outcome_list = []) := by
  constructor
  · obtain ⟨tok, r, _, heq, _⟩ :=
      C3_forced_informative_quota.2.1 cal0 "forced_choice-informative"
        "left_choice_key" (initialQuotas cal0) 0 0 0 0
        (by decide) (by decide)
        (by rw [initialQuotas_eq]; decide)
    rw [heq]
    simp
  · exact C3_forced_informative_quota.2.2 cal0 trials20
      ⟨[], forced_NI_choice_outcome_list, forced_NI_choice_feedback_list cal0⟩ 4
      (by intro t ht
          rw [List.eq_of_mem_replicate ht]
          exact ⟨by decide, by decide⟩)
      (by decide)
      (by rw [initialQuotas_eq, forced_NI_choice_outcome_list_eq,
            forced_NI_choice_feedback_list_eq]
          decide)

/-- C4: from the seeded quotas (20 tokens each), a successfully completed
run has consumed each quota exactly once per forced trial of its kind, so
a quota is empty exactly when the session contained all 20 forced trials
of that kind; and any pop from an already-empty quota is fatal
(`random.choice([])` raises `IndexError`, modelled `none`) — outcomes are
never silently reused. -/
theorem C4_quota_consumption :
    (∀ (cal : Calibration) (trials : List TrialRec)
      (q' : QuotaState) (n' : Nat),
      runSession cal trials (initialQuotas cal) 0 = some (q', n') →
      (q'.forced_I_choice_outcome_list.length +
          trials.countP (isForcedInformative cal) = 20 ∧
        q'.forced_NI_choice_outcome_list.length +
          trials.countP (isForcedNoninformative cal) = 20 ∧
        q'.forced_NI_choice_feedback_list.length +
          trials.countP (isForcedNoninformative cal) = 20) ∧
      ((q'.forced_I_choice_outcome_list = [] ↔
          trials.countP (isForcedInformative cal) = 20) ∧
        (q'.forced_NI_choice_outcome_list = [] ↔
          trials.countP (isForcedNoninformative cal) = 20) ∧
        (q'.forced_NI_choice_feedback_list = [] ↔
          trials.countP (isForcedNoninformative cal) = 20))) ∧
    (∀ (cal : Calibration) (trial_type choice : String) (q : QuotaState)
      (u1 u2 : ℚ) (k1 k2 : Nat),
      strContains trial_type "forced" = true →
      (choiceSide choice = pyLower cal.informative_side →
        q.forced_I_choice_outcome_list = [] →
        feedback_stage cal trial_type choice q u1 u2 k1 k2 = none) ∧
      (¬ choiceSide choice = pyLower cal.informative_side →
        (q.forced_NI_choice_outcome_list = [] ∨
          q.forced_NI_choice_feedback_list = []) →
        feedback_stage cal trial_type choice q u1 u2 k1 k2 = none)) := by
  constructor
  · intro cal trials q' n' hrun
    obtain ⟨h1, h2, h3⟩ := runSession_quota_accounting cal trials
      (initialQuotas cal) 0 q' n' hrun
    dsimp only [initialQuotas] at h1 h2 h3
    have e1 : forced_I_choice_outcome_list.length = 20 := by
      rw [forced_I_choice_outcome_list_eq]
      decide
    have e2 : forced_NI_choice_outcome_list.length = 20 := by
      rw [forced_NI_choice_outcome_list_eq]
      decide
    have e3 : (forced_NI_choice_feedback_list cal).length = 20 := by
      rw [forced_NI_choice_feedback_list_eq]
      simp
    rw [e1] at h1
    rw [e2] at h2
    rw [e3] at h3
    refine ⟨⟨h1, h2, h3⟩, ?_, ?_, ?_⟩ <;>
      constructor <;> intro hx
    · rw [hx] at h1
      simpa using h1
    · refine List.length_eq_zero.mp ?_
      omega
    · rw [hx] at h2
      simpa using h2
    · refine List.length_eq_zero.mp ?_
      omega
    · rw [hx] at h3
      simpa using h3
    · refine List.length_eq_zero.mp ?_
      omega
  · intro cal trial_type choice q u1 u2 k1 k2 hforced
    constructor
    · intro hside hempty
      rw [feedback_stage_forced_informative cal _ _ q u1 u2 k1 k2 hside hforced,
        hempty, pyChoice_nil]
    · intro hside hor
      rw [feedback_stage_forced_noninformative cal _ _ q u1 u2 k1 k2 hside hforced]
      rcases hor with hempty | hempty
      · rw [hempty, pyChoice_nil]
      · cases hpy : pyChoice k1 q.forced_NI_choice_outcome_list with
        | none => rfl
        | some outcome =>
          rw [hempty, pyChoice_nil]

/-- A single completed forced informative-choice trial. -/
def trialFI0 : TrialRec :=
  ⟨"forced_choice-informative", "left_choice_key", 0, 0, 0, 0⟩

/-- The quota state after that one trial: one `"win"` popped from the
informative quota, both non-informative quotas untouched. -/
def quotaAfterOne : QuotaState :=
  ⟨List.replicate 3 "win" ++ List.replicate 16 "loss",
    List.replicate 10 "win" ++ List.replicate 10 "loss",
    List.replicate 4 cal0.noninformative_Splus_color ++
      List.replicate 16 cal0.noninformative_Sminus_color⟩

/-- Witness for `C4_quota_consumption`: the accounting instantiated on a
one-trial session, and a pop from fully empty quotas failing. -/
theorem C4_quota_consumption_witness :
    ((quotaAfterOne.forced_I_choice_outcome_list.length +
        [trialFI0].countP (isForcedInformative cal0) = 20 ∧
      quotaAfterOne.forced_NI_choice_outcome_list.length +
        [trialFI0].countP (isForcedNoninformative cal0) = 20 ∧
      quotaAfterOne.forced_NI_choice_feedback_list.length +
        [trialFI0].countP (isForcedNoninformative cal0) = 20) ∧
    ((quotaAfterOne.forced_I_choice_outcome_list = [] ↔
        [trialFI0].countP (isForcedInformative cal0) = 20) ∧
      (quotaAfterOne.forced_NI_choice_outcome_list = [] ↔
        [trialFI0].countP (isForcedNoninformative cal0) = 20) ∧
      (quotaAfterOne.forced_NI_choice_feedback_list = [] ↔
        [trialFI0].countP (isForcedNoninformative cal0) = 20))) ∧
    feedback_stage cal0 "forced_choice-informative" "left_choice_key"
      ⟨[], [], []⟩ 0 0 0 0 = none := by
  constructor
  · exact C4_quota_consumption.1 cal0 [trialFI0] quotaAfterOne 1
      (by rw [initialQuotas_eq]; decide)
  · exact (C4_quota_consumption.2 cal0 "forced_choice-informative"
      "left_choice_key" ⟨[], [], []⟩ 0 0 0 0 (by decide)).1 (by decide) rfl

/-! ## Trial state machine: key layout and the rejection sub-protocol
(`build_keys` lines 738-805, `key_press` lines 908-955) -/

/-- The `key_str_list_to_build` selection of `build_keys` (lines
776-805): which keys are filled in and active for the current
phase / stage / trial type, in the source's append order.  After a
rejection (`rejected_trial`) only the alternative side's choice key is
built, with no rejection key. -/
def key_str_list_to_build (cal : Calibration) (training_phase : Nat)
    (trial_type : String) (trial_stage : Nat) (rejected_trial : Bool)
    (feedback_stimulus : String) : List String :=
  if training_phase = 0 then [trial_type]
  else if training_phase = 1 then
    if trial_stage = 0 then
      if rejected_trial = false then
        (if trial_type ∈ ["forced_choice-informative", "rejection-informative",
            "free_choice"] then
          [pyLower cal.informative_side ++ "_choice_key"] else []) ++
        (if trial_type ∈ ["rejection-noninformative",
            "forced_choice-noninformative", "free_choice"] then
          [pyLower cal.noninformative_side ++ "_choice_key"] else []) ++
        (if trial_type ∈ ["rejection-noninformative", "rejection-informative"] then
          ["rejection_key"] else [])
      else
        if trial_type = "rejection-noninformative" then
          [pyLower cal.informative_side ++ "_choice_key"]
        else if trial_type = "rejection-informative" then
          [pyLower cal.noninformative_side ++ "_choice_key"]
        else []
    else if trial_stage = 1 then [feedback_stimulus]
    else []
  else []

/-- The per-trial mutable state that `key_press` touches. -/
structure TrialState where
  trial_stage : Nat
  rejected_trial : Bool
  choice : Option String
deriving Repr, DecidableEq

/-- What `key_press` schedules after its state update. -/
inductive KeyPressEffect
  /-- black rectangles cover both original choice-key regions, and after
  `rejection_FI_duration` ms a timer re-runs `initial_links_stage`
  (which rebuilds the keys with `rejected_trial = true`). -/
  | coverKeysThenRelightAfter (fi_duration : Int)
  /-- proceed to `feedback_stage`. -/
  | enterFeedbackStage
  /-- no state change, nothing scheduled. -/
  | nothing
deriving Repr, DecidableEq

/-- The main-phase (`training_phase == 1`) dispatch of
`MainScreen.key_press` (lines 928-955), after the logging block: only a
stage-0 press does anything; a rejection-key press is guarded by
`if not self.rejected_trial`, so only the first one per trial mutates
state; any other key records the choice and enters the feedback stage. -/
def key_press_phase1 (cal : Calibration) (st : TrialState) (keytag : String) :
    TrialState × KeyPressEffect :=
  if st.trial_stage = 0 then
    if strContains keytag "rejection" then
      if st.rejected_trial = false then
        ({ st with rejected_trial := true },
          .coverKeysThenRelightAfter cal.rejection_FI_duration)
      else (st, .nothing)
    else ({ st with choice := some keytag }, .enterFeedbackStage)
  else (st, .nothing)

/-- The settings sheet assigns the two options to the two physical
sides. -/
def validSides (cal : Calibration) : Prop :=
  (cal.informative_side = "Left" ∧ cal.noninformative_side = "Right") ∨
    (cal.informative_side = "Right" ∧ cal.noninformative_side = "Left")

/-- C5: within a rejection trial, only the first rejection-key press
changes anything: it sets `rejected_trial`, covers both original choice
keys, and after the configured rejection FI re-enters the initial links,
which now build only the alternative option's key with no rejection key
present; a rejection-key press with `rejected_trial` already set leaves
the state unchanged and schedules nothing, so at most one rejection can
affect a trial. -/
theorem C5_rejection_protocol :
    (∀ (cal : Calibration) (st : TrialState) (keytag : String),
      st.trial_stage = 0 → st.rejected_trial = false →
      strContains keytag "rejection" = true →
      key_press_phase1 cal st keytag =
        ({ st with rejected_trial := true },
          .coverKeysThenRelightAfter cal.rejection_FI_duration)) ∧
    (∀ (cal : Calibration) (st : TrialState) (keytag : String),
      st.rejected_trial = true → strContains keytag "rejection" = true →
      key_press_phase1 cal st keytag = (st, .nothing)) ∧
    (∀ (cal : Calibration) (fb : String), validSides cal →
      key_str_list_to_build cal 1 "rejection-informative" 0 true fb =
          [pyLower cal.noninformative_side ++ "_choice_key"] ∧
        key_str_list_to_build cal 1 "rejection-noninformative" 0 true fb =
          [pyLower cal.informative_side ++ "_choice_key"] ∧
        "rejection_key" ∉
          key_str_list_to_build cal 1 "rejection-informative" 0 true fb ∧
        "rejection_key" ∉
          key_str_list_to_build cal 1 "rejection-noninformative" 0 true fb) := by
  refine ⟨?_, ?_, ?_⟩
  · intro cal st keytag hstage hrej hkey
    rw [key_press_phase1, if_pos hstage, if_pos hkey, if_pos hrej]
  · intro cal st keytag hrej hkey
    rw [key_press_phase1]
    by_cases hstage : st.trial_stage = 0
    · rw [if_pos hstage, if_pos hkey, if_neg (by simp [hrej])]
    · rw [if_neg hstage]
  · intro cal fb hv
    have e1 : key_str_list_to_build cal 1 "rejection-informative" 0 true fb =
        [pyLower cal.noninformative_side ++ "_choice_key"] := rfl
    have e2 : key_str_list_to_build cal 1 "rejection-noninformative" 0 true fb =
        [pyLower cal.informative_side ++ "_choice_key"] := rfl
    refine ⟨e1, e2, ?_, ?_⟩
    · rw [e1]
      rcases hv with ⟨_, h2⟩ | ⟨_, h2⟩ <;> rw [h2] <;> decide
    · rw [e2]
      rcases hv with ⟨h1, _⟩ | ⟨h1, _⟩ <;> rw [h1] <;> decide

/-- Witness for `C5_rejection_protocol` on concrete states: a first and
a second rejection-key press, and the rebuilt key layout. -/
theorem C5_rejection_protocol_witness :
    key_press_phase1 cal0 ⟨0, false, none⟩ "rejection_key" =
      (⟨0, true, none⟩, .coverKeysThenRelightAfter 1) ∧
    key_press_phase1 cal0 ⟨0, true, none⟩ "rejection_key" =
      (⟨0, true, none⟩, .nothing) ∧
    key_str_list_to_build cal0 1 "rejection-informative" 0 true
        "ll_feedback_key" = ["right_choice_key"] ∧
    "rejection_key" ∉ key_str_list_to_build cal0 1 "rejection-informative" 0
        true "ll_feedback_key" := by
  refine ⟨?_, ?_, ?_, ?_⟩
  · exact C5_rejection_protocol.1 cal0 ⟨0, false, none⟩ "rejection_key"
      rfl rfl (by decide)
  · exact C5_rejection_protocol.2.1 cal0 ⟨0, true, none⟩ "rejection_key"
      rfl (by decide)
  · exact ((C5_rejection_protocol.2.2 cal0 "ll_feedback_key"
      (Or.inl ⟨rfl, rfl⟩)).1).trans (by decide)
  · exact (C5_rejection_protocol.2.2 cal0 "ll_feedback_key"
      (Or.inl ⟨rfl, rfl⟩)).2.2.1

/-- C6: a non-forced trial resolved on the non-informative side uses two
independent `uniform(0,1)` draws: the first alone decides reinforcement
(against `noninformative_prob = 0.5`), the second alone decides the
displayed terminal color (S+ iff it is at most `informative_prob = 0.2` —
the informative probability is the mixing weight); quotas are untouched,
and reinforcement does not depend on the color draw nor the color on the
reinforcement draw. -/
theorem C6_noninformative_two_draws :
    ∀ (cal : Calibration) (trial_type choice : String) (q : QuotaState)
      (u1 u2 : ℚ) (k1 k2 : Nat),
      strContains trial_type "forced" = false →
      choiceSide choice = pyLower cal.noninformative_side →
      ¬ choiceSide choice = pyLower cal.informative_side →
      cal.noninformative_Splus_color ≠ cal.noninformative_Sminus_color →
      ∃ r, feedback_stage cal trial_type choice q u1 u2 k1 k2 = some r ∧
        (r.reinforced = true ↔ u1 ≤ noninformative_prob) ∧
        (r.feedback_color = cal.noninformative_Splus_color ↔
          u2 ≤ informative_prob) ∧
        r.quotas = q ∧
        r.uniform_draws_used = 2 ∧
        (∀ v2 : ℚ, (feedback_stage cal trial_type choice q u1 v2 k1 k2).map
            FeedbackResult.reinforced = some r.reinforced) ∧
        (∀ v1 : ℚ, (feedback_stage cal trial_type choice q v1 u2 k1 k2).map
            FeedbackResult.feedback_color = some r.feedback_color) := by
  intro cal trial_type choice q u1 u2 k1 k2 hforced hnside hside hne
  rw [feedback_stage_live_noninformative cal _ _ q u1 u2 k1 k2 hside hforced]
  refine ⟨_, rfl, ?_, ?_, rfl, rfl, ?_, ?_⟩
  · simp
  · by_cases h2 : u2 ≤ informative_prob
    · rw [if_pos h2]
      simp [h2]
    · rw [if_neg h2]
      simp [h2, Ne.symm hne]
  · intro v2
    rw [feedback_stage_live_noninformative cal _ _ q u1 v2 k1 k2 hside hforced]
    rfl
  · intro v1
    rw [feedback_stage_live_noninformative cal _ _ q v1 u2 k1 k2 hside hforced]
    rfl

/-- Witness for `C6_noninformative_two_draws` at the concrete calibration
`cal0` on a free-choice trial with the right (non-informative) key
chosen: the embedded `feedback_stage` resolves without error. -/
theorem C6_noninformative_two_draws_witness :
    ¬ feedback_stage cal0 "free_choice" "right_choice_key"
        ⟨[], [], []⟩ 0 1 0 0 = none := by
  obtain ⟨r, heq, _⟩ := C6_noninformative_two_draws cal0 "free_choice"
    "right_choice_key" ⟨[], [], []⟩ 0 1 0 0
    (by decide) (by decide) (by decide) (by decide)
  rw [heq]
  simp

/-! ## Event logging (`write_data` lines 1069-1125, `key_press` lines
908-918, `write_comp_data` lines 1137-1154) -/

/-- Embeds `self.key_color_dict` as assigned in `first_ITI` (lines 451-468);
`none` models a `KeyError` on a missing key, and the dictionary is never
assigned at all when the informative side is neither `"Left"` nor
`"Right"`. -/
def key_color_dict (cal : Calibration) (key : String) : Option String :=
  if cal.informative_side = "Left" then
    if key = "left_choice_key" then some "white"
    else if key = "right_choice_key" then some "white"
    else if key = "ll_feedback_key" then some cal.informative_Splus_color
    else if key = "lr_feedback_key" then some cal.informative_Sminus_color
    else if key = "rl_feedback_key" then some cal.noninformative_Splus_color
    else if key = "rr_feedback_key" then some cal.noninformative_Sminus_color
    else if key = "rejection_key" then some "darkslategrey"
    else none
  else if cal.informative_side = "Right" then
    if key = "left_choice_key" then some "white"
    else if key = "right_choice_key" then some "white"
    else if key = "ll_feedback_key" then some cal.noninformative_Splus_color
    else if key = "lr_feedback_key" then some cal.noninformative_Sminus_color
    else if key = "rl_feedback_key" then some cal.informative_Splus_color
    else if key = "rr_feedback_key" then some cal.informative_Sminus_color
    else if key = "rejection_key" then some "white"
    else none
  else none

/-- The raw-to-canonical event-tag translation of `write_data`
(lines 1081-1101).  `none` models the paths on which `exp_outcome` is
never assigned (the code prints `"ERROR"` or falls through all `elif`s;
the subsequent row append then raises `NameError`, so no record is
written). -/
def translate_outcome (cal : Calibration) (outcome : String) : Option String :=
  if outcome ∈ ["left_choice_key_peck", "right_choice_key_peck"] then
    if strContains outcome (pyLower cal.informative_side) then
      some "informative_key_peck"
    else if strContains outcome (pyLower cal.noninformative_side) then
      some "uninformative_key_peck"
    else none
  else if outcome ∈ ["ll_feedback_key_peck", "lr_feedback_key_peck",
      "rl_feedback_key_peck", "rr_feedback_key_peck"] then
    if key_color_dict cal (outcome.dropRight 5) =
        some cal.informative_Splus_color then
      some "informative_Splus_peck"
    else if key_color_dict cal (outcome.dropRight 5) =
        some cal.informative_Sminus_color then
      some "informative_Sminus_peck"
    else if key_color_dict cal (outcome.dropRight 5) =
        some cal.noninformative_Splus_color then
      some "noninformative_Splus_peck"
    else if key_color_dict cal (outcome.dropRight 5) =
        some cal.noninformative_Sminus_color then
      some "noninformative_Sminus_peck"
    else none
  else if strContains outcome "rejection" then
    some "rejection_key_peck"
  else
    some outcome

/-- Round to the nearest integer, ties to even (Python's `round`). -/
def roundHalfEven (q : ℚ) : ℤ :=
  if q - (⌊q⌋ : ℚ) < 1/2 then ⌊q⌋
  else if q - (⌊q⌋ : ℚ) > 1/2 then ⌊q⌋ + 1
  else if ⌊q⌋ % 2 = 0 then ⌊q⌋ else ⌊q⌋ + 1

/-- Python's `round(x, 5)`: round to 5 decimal places. -/
def round5 (q : ℚ) : ℚ := ((roundHalfEven (q * 100000) : ℤ) : ℚ) / 100000

/-- The `TrialTime` column of a `LogRecord` (line 1113):
`round(time() - self.trial_start - (self.ITI_duration/1000), 5)`, where
`trial_start` was set at the top of the current trial's ITI and
`ITI_duration` is in milliseconds. -/
def trialTimeField (now trial_start : ℚ) (iti_ms : Nat) : ℚ :=
  round5 (now - trial_start - (iti_ms : ℚ) / 1000)

/-- One row of `self.session_data_frame` (column order of lines
1106-1125). -/
structure LogRow where
  SessionTime : String
  Xcord : String
  Ycord : String
  LocationEvent : String
  ExperimentalEvent : String
  TrialStage : Nat
  TrialTime : ℚ
  TrialFR : Int
  TrialNum : Nat
  ReinforcersProvided : Nat
  TrialType : String
  RejectedTrial : Bool
  RejectionFIDuration : Int
  InformativeProbability : ℚ
  NoninformativeProbability : ℚ
  Subject : String
  TrainingPhase : Nat
  Date : String
deriving Repr, DecidableEq

/-- The live `MainScreen` attributes that `write_data` reads. -/
structure MSLogCtx where
  cal : Calibration
  session_time : String
  trial_stage : Nat
  now : ℚ
  trial_start : ℚ
  ITI_duration : Nat
  choice_key_FR : Int
  current_trial_counter : Nat
  reinforcers_provided : Nat
  trial_type : String
  rejected_trial : Bool
  subject_ID : String
  training_phase : Nat
  date : String
deriving Repr, DecidableEq

/-- Embeds `MainScreen.write_data` (lines 1069-1125): translate the raw tag and
append exactly one row to the session data frame; `none` models the
crash when `exp_outcome` was never assigned (no row is appended). -/
def write_data (ctx : MSLogCtx) (xy : Option (Int × Int)) (outcome : String)
    (frame : List LogRow) : Option (List LogRow) :=
  match translate_outcome ctx.cal outcome with
  | none => none
  | some exp_outcome =>
    some (frame ++ [{
      SessionTime := ctx.session_time,
      Xcord := match xy with | some p => toString p.1 | none => "NA",
      Ycord := match xy with | some p => toString p.2 | none => "NA",
      LocationEvent := outcome,
      ExperimentalEvent := exp_outcome,
      TrialStage := ctx.trial_stage,
      TrialTime := trialTimeField ctx.now ctx.trial_start ctx.ITI_duration,
      TrialFR := ctx.choice_key_FR,
      TrialNum := ctx.current_trial_counter,
      ReinforcersProvided := ctx.reinforcers_provided,
      TrialType := ctx.trial_type,
      RejectedTrial := ctx.rejected_trial,
      RejectionFIDuration := ctx.cal.rejection_FI_duration,
      InformativeProbability := informative_prob,
      NoninformativeProbability := noninformative_prob,
      Subject := ctx.subject_ID,
      TrainingPhase := ctx.training_phase,
      Date := ctx.date }])

/-- The logging block at the top of `MainScreen.key_press`
(lines 908-918): non-rejection tags log `f"{keytag}_peck"`; rejection
tags log by trial type — but only for the two main-phase rejection trial
types; on any other trial type the code prints `"ERROR"` and appends
nothing. -/
def key_press_log (ctx : MSLogCtx) (xy : Option (Int × Int))
    (keytag : String) (frame : List LogRow) : Option (List LogRow) :=
  if strContains keytag "rejection" = false then
    write_data ctx xy (keytag ++ "_peck") frame
  else if ctx.trial_type = "rejection-informative" then
    write_data ctx xy "rejection-informative_peck" frame
  else if ctx.trial_type = "rejection-noninformative" then
    write_data ctx xy "rejection-noninformative_peck" frame
  else
    some frame

/-- Embeds `MainScreen.write_comp_data` (lines 1137-1154): at session end first
append the `"SessionEnds"` sentinel via `write_data`, then, when data
recording is on, overwrite the session's (fixed-name) output file with
the full data frame.  Result: the updated frame and the file contents
written (if any). -/
def write_comp_data (ctx : MSLogCtx) (record_data : Bool)
    (SessionEnded : Bool) (frame : List LogRow) :
    Option (List LogRow × Option (List LogRow)) :=
  match (if SessionEnded then write_data ctx none "SessionEnds" frame
      else some frame) with
  | none => none
  | some frame2 =>
    some (frame2, if record_data then some frame2 else none)

/-- A concrete pre-training context: the current trial presents the
rejection-key stimulus (`trial_type = "rejection_key"`,
`training_phase = 0`). -/
def ctx_pre : MSLogCtx :=
  ⟨cal0, "0:00:12.000000", 0, 40, 30, 10000, 1, 3, 1,
    "rejection_key", false, "TEST", 0, "23-06-09"⟩

/-- C7 (failing input): during a pre-training `rejection_key` trial, a
click on the rejection-key stimulus enters the `else` branch of the
logging dispatch (the trial type is neither `"rejection-informative"`
nor `"rejection-noninformative"`), which prints `"ERROR"` and appends
no record — zero rows, where the claim requires exactly one.  On the
same context a click on any non-rejection key does append exactly one
record. -/
theorem C7_pretraining_rejection_click_unlogged :
    key_press_log ctx_pre (some (400, 300)) "rejection_key" [] = some [] ∧
    (key_press_log ctx_pre (some (400, 300)) "left_choice_key" []).map
      List.length = some 1 := by
  exact ⟨rfl, rfl⟩

/-- The sentinel row that `write_data(None, "SessionEnds")` appends. -/
def sessionEndsRow (ctx : MSLogCtx) : LogRow :=
  ⟨ctx.session_time, "NA", "NA", "SessionEnds", "SessionEnds",
    ctx.trial_stage, trialTimeField ctx.now ctx.trial_start ctx.ITI_duration,
    ctx.choice_key_FR, ctx.current_trial_counter, ctx.reinforcers_provided,
    ctx.trial_type, ctx.rejected_trial, ctx.cal.rejection_FI_duration,
    informative_prob, noninformative_prob, ctx.subject_ID,
    ctx.training_phase, ctx.date⟩

/-- The tag `"SessionEnds"` translates to itself (it matches no special tag). -/
theorem translate_SessionEnds (cal : Calibration) :
    translate_outcome cal "SessionEnds" = some "SessionEnds" := by
  rw [translate_outcome, if_neg (by decide), if_neg (by decide),
    if_neg (by decide)]

/-- The session-end flush appends exactly the sentinel row. -/
theorem write_data_SessionEnds (ctx : MSLogCtx) (frame : List LogRow) :
    write_data ctx none "SessionEnds" frame =
      some (frame ++ [sessionEndsRow ctx]) := by
  rw [write_data, translate_SessionEnds]
  rfl

/-- C9: a non-final flush writes the unchanged frame to the (fixed-name)
session file, so two flushes with no records appended in between write
identical contents; the session-end flush appends exactly one
`"SessionEnds"` sentinel row before writing. -/
theorem C9_flush_idempotent_and_sentinel :
    ∀ (ctx : MSLogCtx) (record_data : Bool) (frame : List LogRow),
      write_comp_data ctx record_data false frame =
        some (frame, if record_data then some frame else none) ∧
      ((write_comp_data ctx record_data false frame).bind fun p =>
          write_comp_data ctx record_data false p.1) =
        write_comp_data ctx record_data false frame ∧
      write_comp_data ctx record_data true frame =
        some (frame ++ [sessionEndsRow ctx],
          if record_data then some (frame ++ [sessionEndsRow ctx]) else none) ∧
      (sessionEndsRow ctx).LocationEvent = "SessionEnds" ∧
      (sessionEndsRow ctx).ExperimentalEvent = "SessionEnds" := by
  intro ctx record_data frame
  have h1 : write_comp_data ctx record_data false frame =
      some (frame, if record_data then some frame else none) := rfl
  refine ⟨h1, ?_, ?_, rfl, rfl⟩
  · rw [h1]
    rfl
  · rw [write_comp_data, if_pos rfl, write_data_SessionEnds]

/-- Rounding a nonpositive value half-to-even never yields a positive
integer. -/
theorem roundHalfEven_nonpos {q : ℚ} (h : q ≤ 0) : roundHalfEven q ≤ 0 := by
  rw [roundHalfEven]
  have hfl : (⌊q⌋ : ℚ) ≤ q := Int.floor_le q
  have hf0 : ⌊q⌋ ≤ 0 := by
    have h0 := Int.floor_le_floor h
    simpa using h0
  split_ifs with h1 h2 h3
  · exact hf0
  · have hlt : (⌊q⌋ : ℚ) < 0 := by linarith
    have : ⌊q⌋ < 0 := by exact_mod_cast hlt
    omega
  · exact hf0
  · have hle : (⌊q⌋ : ℚ) ≤ -(1/2) := by linarith
    have hlt : (⌊q⌋ : ℚ) < 0 := by linarith
    have : ⌊q⌋ < 0 := by exact_mod_cast hlt
    omega

/-- Rounding half-to-even a value below `-1/2` yields a negative
integer. -/
theorem roundHalfEven_neg {q : ℚ} (h : q < -(1/2)) : roundHalfEven q < 0 := by
  rw [roundHalfEven]
  have hfl : (⌊q⌋ : ℚ) ≤ q := Int.floor_le q
  split_ifs with h1 h2 h3
  · have hlt : (⌊q⌋ : ℚ) < 0 := by linarith
    exact_mod_cast hlt
  · have hlt : (⌊q⌋ : ℚ) < -1 := by linarith
    have : ⌊q⌋ < -1 := by exact_mod_cast hlt
    omega
  · have hlt : (⌊q⌋ : ℚ) < 0 := by linarith
    exact_mod_cast hlt
  · have hlt : (⌊q⌋ : ℚ) < -1 := by linarith
    have : ⌊q⌋ < -1 := by exact_mod_cast hlt
    omega

/-- Rounding: `round(q, 5)` of a nonpositive value is nonpositive. -/
theorem round5_nonpos {q : ℚ} (h : q ≤ 0) : round5 q ≤ 0 := by
  rw [round5]
  have h1 : roundHalfEven (q * 100000) ≤ 0 :=
    roundHalfEven_nonpos (by linarith)
  have h2 : ((roundHalfEven (q * 100000) : ℤ) : ℚ) ≤ 0 := by exact_mod_cast h1
  have h3 : (0 : ℚ) ≤ 100000 := by norm_num
  exact div_nonpos_of_nonpos_of_nonneg h2 h3

/-- Rounding: `round(q, 5)` of a value below half the rounding step is negative. -/
theorem round5_neg {q : ℚ} (h : q < -(1/200000)) : round5 q < 0 := by
  rw [round5]
  have h1 : roundHalfEven (q * 100000) < 0 :=
    roundHalfEven_neg (by linarith)
  have h2 : ((roundHalfEven (q * 100000) : ℤ) : ℚ) < 0 := by exact_mod_cast h1
  exact div_neg_of_neg_of_pos h2 (by norm_num)

/-- C10 counterexample to the claim as stated: an event logged one
microsecond before the ITI elapses (trial elapsed 9.999999 s of a 10 s
ITI) is inside the inter-trial interval, yet its `TrialTime` rounds to
`0`, which is not a negative value. -/
theorem C10_counterexample :
    (9999999/1000000 : ℚ) - 0 < ((10000 : Nat) : ℚ) / 1000 ∧
    trialTimeField (9999999/1000000) 0 10000 = 0 ∧
    ¬ trialTimeField (9999999/1000000) 0 10000 < 0 := by
  have harg : ((9999999/1000000 : ℚ) - 0 - ((10000 : Nat) : ℚ) / 1000) *
      100000 = -(1/10) := by
    push_cast
    norm_num
  have hfl : ⌊(-(1/10) : ℚ)⌋ = -1 := by
    rw [Int.floor_eq_iff]
    constructor <;> norm_num
  have hrhe : roundHalfEven (-(1/10)) = 0 := by
    rw [roundHalfEven, hfl]
    norm_num
  have hval : trialTimeField (9999999/1000000) 0 10000 = 0 := by
    rw [trialTimeField, round5, harg, hrhe]
    norm_num
  refine ⟨by push_cast; norm_num, hval, by rw [hval]; exact lt_irrefl 0⟩

/-- C10 (amended): `TrialTime` is `round(now - trial_start -
ITI_duration/1000, 5)`; during the ITI it is never positive, and it is
strictly negative whenever the event precedes the ITI's end by more than
half the rounding step (5·10⁻⁶ s); within that final sliver it rounds to
zero, not a negative value. -/
theorem C10_trial_time_sign :
    ∀ (now trial_start : ℚ) (iti_ms : Nat),
      now - trial_start < (iti_ms : ℚ) / 1000 →
      trialTimeField now trial_start iti_ms ≤ 0 ∧
      (now - trial_start < (iti_ms : ℚ) / 1000 - 1/200000 →
        trialTimeField now trial_start iti_ms < 0) := by
  intro now trial_start iti_ms h
  constructor
  · exact round5_nonpos (by linarith)
  · intro h2
    exact round5_neg (by linarith)

/-- Witness for `C10_trial_time_sign`: an ITI peck 9 seconds before a
10-second ITI elapses carries a strictly negative `TrialTime`. -/
theorem C10_trial_time_sign_witness :
    trialTimeField 1 0 10000 ≤ 0 ∧ trialTimeField 1 0 10000 < 0 :=
  ⟨(C10_trial_time_sign 1 0 10000 (by push_cast; norm_num)).1,
    (C10_trial_time_sign 1 0 10000 (by push_cast; norm_num)).2
      (by push_cast; norm_num)⟩

/-! ## Start-up validation (`__init__` lines 310-316, `first_ITI` lines
416-449) -/

/-- Digits to a number, most significant first. -/
def digitsToNat (l : List Char) : Nat :=
  l.foldl (fun acc c => acc * 10 + (c.toNat - 48)) 0

/-- Python's `int(str)` on a plain (optionally signed) decimal string:
`ValueError` (`none`) whenever the string is not entirely digits after
an optional sign — e.g. on `"one"` or `"4.5"`. -/
def pyStrToInt (s : String) : Option Int :=
  match s.data with
  | [] => none
  | c :: cs =>
    if c = Char.ofNat 45 then
      if !cs.isEmpty && cs.all Char.isDigit then
        some (-(digitsToNat cs : Int))
      else none
    else if c = Char.ofNat 43 then
      if !cs.isEmpty && cs.all Char.isDigit then
        some ((digitsToNat cs : Int))
      else none
    else
      if (c :: cs).all Char.isDigit then
        some ((digitsToNat (c :: cs) : Int))
      else none

/-- What `MainScreen.__init__` leaves behind for the pre-training FR
(lines 310-316): whether `self.preTraining_FR` was assigned, whether the
error message was printed, and whether initialization went on to open
the session screen (`place_birds_in_box`). -/
structure InitResult where
  preTraining_FR : Option Int
  error_printed : Bool
  proceeded_to_session : Bool
deriving Repr, DecidableEq

/-- The FR-validation portion of `MainScreen.__init__`: in pre-training
the operator string is parsed with `int(...)`; a `ValueError` is caught,
a message is printed, and — the `except` block neither re-raises nor
returns — execution falls through and `place_birds_in_box()` is reached
in every case, with `self.preTraining_FR` left unset. -/
def mainscreen_init (training_phase : Nat) (preTraining_FR : String) :
    InitResult :=
  if training_phase = 0 then
    match pyStrToInt preTraining_FR with
    | some n => ⟨some n, false, true⟩
    | none => ⟨none, true, true⟩
  else ⟨some 1, false, true⟩

/-- One row of `P037_Settings-Assignments.csv`, fields as raw strings. -/
structure SettingsRow where
  Subject : String
  hopper_duration_ms : String
  rejection_FI_duration_ms : String
  informative_side_field : String
  informative_Splus_field : String
  informative_Sminus_field : String
  noninformative_side_field : String
  noninformative_Splus_field : String
  noninformative_Sminus_field : String
deriving Repr, DecidableEq

/-- The subject lookup of `first_ITI` (lines 429-433): iterate over all
rows, overwriting `settings_dict` on every match (last match wins);
an absent file is the empty row list. -/
def find_settings_dict (rows : List SettingsRow) (subj : String) :
    Option SettingsRow :=
  rows.foldl (fun acc r => if r.Subject = subj then some r else acc) none

/-- How the settings import of `first_ITI` (lines 439-449) ends. -/
inductive SettingsLoadResult
  /-- all fields parsed; the calibration attributes are assigned. -/
  | loaded (cal : Calibration)
  /-- `settings_dict` stayed `"NA"` (file absent or subject not found):
  subscripting the string raises `TypeError`, which the code catches and
  prints, then continues with every calibration attribute unset (the
  session later dies with `AttributeError` when one is first read). -/
  | attributesUnset
  /-- a numeric field failed `int(...)`: the `ValueError` is not caught
  (only `TypeError` is), so `first_ITI` aborts in the exception. -/
  | uncaughtError
deriving Repr, DecidableEq

/-- The settings import of `first_ITI` (lines 429-449). -/
def first_ITI_load_settings (rows : List SettingsRow) (subj : String) :
    SettingsLoadResult :=
  match find_settings_dict rows subj with
  | none => .attributesUnset
  | some r =>
    match pyStrToInt r.hopper_duration_ms with
    | none => .uncaughtError
    | some h =>
      match pyStrToInt r.rejection_FI_duration_ms with
      | none => .uncaughtError
      | some fi =>
        .loaded ⟨h, fi, r.informative_side_field, r.informative_Splus_field,
          r.informative_Sminus_field, r.noninformative_side_field,
          r.noninformative_Splus_field, r.noninformative_Sminus_field⟩

/-- C8 counterexample to the claim as stated: with the non-integer FR
input `"one"` in pre-training, the `ValueError` is caught and printed
but initialization still proceeds to open the session
(`proceeded_to_session = true`, `preTraining_FR` unset) — the session
does not refuse to start at validation time; likewise a missing
settings file (no rows) merely leaves the calibration attributes unset
and `first_ITI` carries on past the printed error. -/
theorem C8_counterexample :
    mainscreen_init 0 "one" =
      ⟨none, true, true⟩ ∧
    (mainscreen_init 0 "one").proceeded_to_session = true ∧
    first_ITI_load_settings [] "Zappa" = .attributesUnset := by
  exact ⟨rfl, rfl, rfl⟩

/-- C8 (amended): each of the error conditions is surfaced to the
operator and no silent default is substituted — but none of them makes
the session refuse to start at validation time.  A non-integer FR is
caught and printed and `__init__` still proceeds with the attribute
unset; a missing file or missing subject leaves all calibration
attributes unset after a printed `TypeError`; only a non-numeric numeric
field aborts `first_ITI`, via an uncaught `ValueError` rather than a
validation refusal. -/
theorem C8_validation_not_fatal :
    (∀ s : String, pyStrToInt s = none →
      mainscreen_init 0 s = ⟨none, true, true⟩) ∧
    (∀ (rows : List SettingsRow) (subj : String),
      find_settings_dict rows subj = none →
      first_ITI_load_settings rows subj = .attributesUnset) ∧
    (∀ (rows : List SettingsRow) (subj : String) (r : SettingsRow),
      find_settings_dict rows subj = some r →
      pyStrToInt r.hopper_duration_ms = none →
      first_ITI_load_settings rows subj = .uncaughtError) := by
  refine ⟨?_, ?_, ?_⟩
  · intro s hs
    rw [mainscreen_init, if_pos rfl, hs]
  · intro rows subj hfind
    rw [first_ITI_load_settings, hfind]
  · intro rows subj r hfind hbad
    rw [first_ITI_load_settings, hfind]
    dsimp only
    rw [hbad]

/-- A settings row for subject `"Zappa"` with a non-numeric hopper
duration. -/
def badRow : SettingsRow :=
  ⟨"Zappa", "fast", "1", "Left", "red", "green", "Right", "yellow", "blue"⟩

/-- Witness for `C8_validation_not_fatal` at concrete inputs: the FR
string `"one"`, an empty settings file, and a malformed row. -/
theorem C8_validation_not_fatal_witness :
    mainscreen_init 0 "one" = ⟨none, true, true⟩ ∧
    first_ITI_load_settings [] "Ozzy" = .attributesUnset ∧
    first_ITI_load_settings [badRow] "Zappa" = .uncaughtError := by
  refine ⟨?_, ?_, ?_⟩
  · exact C8_validation_not_fatal.1 "one" (by decide)
  · exact C8_validation_not_fatal.2.1 [] "Ozzy" rfl
  · exact C8_validation_not_fatal.2.2 [badRow] "Zappa" badRow
      (by decide) (by decide)
